import Mathlib

/-!
Shallow embedding of `app.py` (BlogGpt content-generation service).

The service exposes three FastAPI routes.  `POST /generate-post` takes a
topic, fetches recent news headlines from the Currents API
(`get_recent_news`), then makes three sequential ChatCompletion calls
(title, meta-description, body) and returns the three trimmed texts.
News-provider failures raise `HTTPException(500, ...)` before the
completion `try` block; a `requests.exceptions.Timeout` inside the block
maps to `HTTPException(504, ...)`, any other exception to
`HTTPException(500, ...)`.  `GET /` and `GET /heartbeat` return constant
payloads.  Module-level code aborts startup with a `ValueError` when
either API key environment variable is falsy.

External effects are embedded as explicit parameters: the news provider
is a function from the outbound request to a response, and the
completion provider is a function from the call index and prompt to an
outcome.  `generate_content` additionally returns the list of completion
calls it issued, in order, so that call-count and prompt-content
properties can be stated.
-/

namespace BlogGpt

/-- Model of Python `str.strip()`: remove leading and trailing whitespace
characters from both ends of the string. -/
def pyStrip (s : String) : String :=
  ⟨((s.data.dropWhile Char.isWhitespace).reverse.dropWhile Char.isWhitespace).reverse⟩

/-- One article record from the news provider JSON.  The `title` field is
`Option`al: `article["title"]` in `get_recent_news` raises a `KeyError`
when the key is missing, modelled here by `none`. -/
structure Article where
  title : Option String
deriving DecidableEq, Repr

/-- The part of the news provider HTTP response that `get_recent_news`
reads: `response.status_code`, `response.text`, and the parsed
`response.json().get("news", [])` collection. -/
structure NewsResponse where
  status_code : Nat
  text : String
  news : List Article
deriving DecidableEq, Repr

/-- The outbound request that `get_recent_news` issues through
`requests.get(url, params=params)`.  `requests.get` is called with no
`timeout` argument, so `timeoutSeconds` is `none`. -/
structure NewsRequest where
  method : String
  url : String
  params : List (String × String)
  timeoutSeconds : Option Nat
deriving DecidableEq, Repr

/-- The `url` and `params` built in `get_recent_news` (`app.py`
lines 36-42): language `"ru"`, the topic under the literal key
`"АСУ ТП"`, and the Currents API key.  No `timeout` is passed to
`requests.get`. -/
def newsRequest (currentsapi_key topic : String) : NewsRequest :=
  { method := "GET"
    url := "https://api.currentsapi.services/v1/latest-news"
    params := [("language", "ru"), ("АСУ ТП", topic), ("apiKey", currentsapi_key)]
    timeoutSeconds := none }

/-- Outcome of `get_recent_news`: a headline string, a raised
`HTTPException(status, detail)`, or an unhandled `KeyError` from
`article["title"]` on a record with no title. -/
inductive NewsResult where
  | ok : String → NewsResult
  | httpError : Nat → String → NewsResult
  | keyError : NewsResult
deriving DecidableEq, Repr

/-- The list comprehension `[article["title"] for article in news_data[:5]]`
applied to an already-truncated list: left to right, failing like a
`KeyError` (`none`) at the first record with no `"title"` key. -/
def extractTitles : List Article → Option (List String)
  | [] => some []
  | a :: rest =>
    match a.title with
    | none => none
    | some t => (extractTitles rest).map (fun ts => t :: ts)

/-- `get_recent_news(topic)` from `app.py` lines 26-54, with the HTTP
effect supplied as `fetch`.  Non-200 statuses raise
`HTTPException(500, ...)` with the response text; an empty `news`
collection yields the sentinel string; otherwise the titles of the first
5 records are joined with newlines. -/
def get_recent_news (currentsapi_key topic : String)
    (fetch : NewsRequest → NewsResponse) : NewsResult :=
  let response := fetch (newsRequest currentsapi_key topic)
  if response.status_code ≠ 200 then
    NewsResult.httpError 500 ("Ошибка при получении данных: " ++ response.text)
  else if response.news.isEmpty then
    NewsResult.ok "Свежих новостей не найдено."
  else
    match extractTitles (response.news.take 5) with
    | none => NewsResult.keyError
    | some ts => NewsResult.ok (String.intercalate "\n" ts)

/-- Outcome of one `openai.ChatCompletion.create` call: the returned
message content, a `requests.exceptions.Timeout`, or some other
exception whose `str(e)` is the carried string. -/
inductive CompletionOutcome where
  | ok : String → CompletionOutcome
  | timeout : CompletionOutcome
  | error : String → CompletionOutcome
deriving DecidableEq, Repr

/-- The observable parameters of one `openai.ChatCompletion.create`
call. -/
structure CompletionCall where
  model : String
  prompt : String
  max_tokens : Nat
  timeoutSec : Nat
deriving DecidableEq, Repr

/-- The title prompt (`app.py` line 75) with `topic` and `recent_news`
interpolated. -/
def titlePrompt (topic recent_news : String) : String :=
  "Придумайте привлекательный и точный заголовок для статьи на тему '" ++ topic ++
    "', с учётом актуальных новостей:\n" ++ recent_news ++
    ". Заголовок должен быть интересным и ясно передавать суть темы."

/-- The meta-description prompt (`app.py` line 88) with the generated
`title` interpolated. -/
def metaPrompt (title : String) : String :=
  "Напишите мета-описание для статьи с заголовком: '" ++ title ++
    "'. Оно должно быть полным, информативным и содержать основные ключевые слова."

/-- The body prompt (`app.py` lines 101-110) with `topic` and
`recent_news` interpolated; the triple-quoted literal keeps its
indentation and the trailing space after `{recent_news}. `. -/
def bodyPrompt (topic recent_news : String) : String :=
  "Напишите подробную статью на тему '" ++ topic ++
    "', используя последние новости:\n" ++ recent_news ++
    ". \n                Статья должна быть:\n                1. Информативной и логичной\n                2. Содержать не менее 1500 символов\n                3. Иметь четкую структуру с подзаголовками\n                4. Включать анализ текущих трендов\n                5. Иметь вступление, основную часть и заключение\n                6. Включать примеры из актуальных новостей\n                7. Каждый абзац должен быть не менее 3-4 предложений\n                8. Текст должен быть легким для восприятия и содержательным"

/-- Detail string of the 504 raised on `requests.exceptions.Timeout`
(`app.py` line 128). -/
def timeoutDetail : String := "Превышено время ожидания ответа от ProxyAPI"

/-- The three generated fields returned by `generate_content`. -/
structure GeneratedContent where
  title : String
  meta_description : String
  post_content : String
deriving DecidableEq, Repr

/-- Result of one `/generate-post` request: the full three-field content,
a raised `HTTPException(status, detail)`, or an exception that escapes
every handler (the `KeyError` from `get_recent_news`, which runs before
the `try` block). -/
inductive PostResult where
  | ok : GeneratedContent → PostResult
  | httpError : Nat → String → PostResult
  | unhandled : PostResult
deriving DecidableEq, Repr

/-- `generate_content(topic)` from `app.py` lines 57-131, with the two
external effects supplied as functions.  Returns the result paired with
the completion calls issued, in order.  The news lookup runs before the
`try` block, so its `HTTPException` (and the `KeyError`) pass through
the completion exception handlers untouched; inside the block a timeout
on any call raises 504 and any other exception raises 500 with
`str(e)` appended to the generation-error text. -/
def generate_content (topic currentsapi_key : String)
    (fetch : NewsRequest → NewsResponse)
    (completion : Nat → String → CompletionOutcome) :
    PostResult × List CompletionCall :=
  match get_recent_news currentsapi_key topic fetch with
  | NewsResult.httpError s d => (PostResult.httpError s d, [])
  | NewsResult.keyError => (PostResult.unhandled, [])
  | NewsResult.ok recent_news =>
    match completion 0 (titlePrompt topic recent_news) with
    | CompletionOutcome.timeout =>
      (PostResult.httpError 504 timeoutDetail,
        [⟨"gpt-4o-mini", titlePrompt topic recent_news, 60, 15⟩])
    | CompletionOutcome.error e =>
      (PostResult.httpError 500 ("Ошибка при генерации контента: " ++ e),
        [⟨"gpt-4o-mini", titlePrompt topic recent_news, 60, 15⟩])
    | CompletionOutcome.ok raw1 =>
      match completion 1 (metaPrompt (pyStrip raw1)) with
      | CompletionOutcome.timeout =>
        (PostResult.httpError 504 timeoutDetail,
          [⟨"gpt-4o-mini", titlePrompt topic recent_news, 60, 15⟩,
           ⟨"gpt-4o-mini", metaPrompt (pyStrip raw1), 120, 15⟩])
      | CompletionOutcome.error e =>
        (PostResult.httpError 500 ("Ошибка при генерации контента: " ++ e),
          [⟨"gpt-4o-mini", titlePrompt topic recent_news, 60, 15⟩,
           ⟨"gpt-4o-mini", metaPrompt (pyStrip raw1), 120, 15⟩])
      | CompletionOutcome.ok raw2 =>
        match completion 2 (bodyPrompt topic recent_news) with
        | CompletionOutcome.timeout =>
          (PostResult.httpError 504 timeoutDetail,
            [⟨"gpt-4o-mini", titlePrompt topic recent_news, 60, 15⟩,
             ⟨"gpt-4o-mini", metaPrompt (pyStrip raw1), 120, 15⟩,
             ⟨"gpt-4o-mini", bodyPrompt topic recent_news, 1500, 30⟩])
        | CompletionOutcome.error e =>
          (PostResult.httpError 500 ("Ошибка при генерации контента: " ++ e),
            [⟨"gpt-4o-mini", titlePrompt topic recent_news, 60, 15⟩,
             ⟨"gpt-4o-mini", metaPrompt (pyStrip raw1), 120, 15⟩,
             ⟨"gpt-4o-mini", bodyPrompt topic recent_news, 1500, 30⟩])
        | CompletionOutcome.ok raw3 =>
          (PostResult.ok ⟨pyStrip raw1, pyStrip raw2, pyStrip raw3⟩,
            [⟨"gpt-4o-mini", titlePrompt topic recent_news, 60, 15⟩,
             ⟨"gpt-4o-mini", metaPrompt (pyStrip raw1), 120, 15⟩,
             ⟨"gpt-4o-mini", bodyPrompt topic recent_news, 1500, 30⟩])

/-- The request-body model `Topic` (`app.py` lines 22-23): a single
string field with no constraints. -/
structure Topic where
  topic : String
deriving DecidableEq, Repr

/-- Pydantic validation of the `/generate-post` request body: the
`topic` field is required and must be a string, but any string value —
the empty string included — is accepted unchanged. -/
def parseTopic : Option String → Except String Topic
  | none => Except.error "field required"
  | some s => Except.ok ⟨s⟩

/-- The `POST /generate-post` handler (`app.py` lines 133-144): it
forwards `topic.topic` to `generate_content` with no further
validation. -/
def generate_post_api (t : Topic) (currentsapi_key : String)
    (fetch : NewsRequest → NewsResponse)
    (completion : Nat → String → CompletionOutcome) :
    PostResult × List CompletionCall :=
  generate_content t.topic currentsapi_key fetch completion

/-- The state of the two downstream providers, as seen by a request
handler.  The liveness routes take it as a parameter only to express
that their responses do not depend on it. -/
structure Providers where
  fetch : NewsRequest → NewsResponse
  completion : Nat → String → CompletionOutcome

/-- A single-field JSON liveness payload: the field name and its string
value. -/
structure LivenessPayload where
  field : String
  value : String
deriving DecidableEq, Repr

/-- The `GET /` handler (`app.py` lines 146-151): always HTTP 200 with
`{"message": "Служба запущена"}`, whatever the providers do. -/
def root (_ : Providers) : Nat × LivenessPayload :=
  (200, ⟨"message", "Служба запущена"⟩)

/-- The `GET /heartbeat` handler (`app.py` lines 153-158): always HTTP
200 with `{"status": "Все работает, отлично!"}`, whatever the providers
do. -/
def heartbeat_api (_ : Providers) : Nat × LivenessPayload :=
  (200, ⟨"status", "Все работает, отлично!"⟩)

/-- Python truthiness of an optional environment-variable string:
`os.getenv` returns `None` when the variable is absent, and `not x` is
true for `None` and for the empty string. -/
def pyTruthy : Option String → Bool
  | none => false
  | some s => !(s == "")

/-- Message of the `ValueError` raised by the module-level credential
check (`app.py` line 16). -/
def configErrorMsg : String :=
  "Переменные окружения OPENAI_API_KEY и CURRENTS_API_KEY должны быть установлены"

/-- Outcome of process startup: aborted by the module-level `ValueError`
before any socket is bound, or running with the server bound to the
given port. -/
inductive StartupResult where
  | aborted : String → StartupResult
  | running : Nat → StartupResult
deriving DecidableEq, Repr

/-- Module-level startup (`app.py` lines 10-16 and 160-164): read the
two keys from the environment, raise `ValueError` when
`not openai.api_key or not currentsapi_key`, and otherwise proceed to
bind the server to the port.  The check runs at import time, before
`uvicorn.run`, so an abort happens before any port is bound. -/
def startService (openai_api_key currentsapi_key : Option String)
    (port : Nat) : StartupResult :=
  if !(pyTruthy openai_api_key) || !(pyTruthy currentsapi_key) then
    StartupResult.aborted configErrorMsg
  else
    StartupResult.running port

/-- `sub` occurs contiguously inside `s`. -/
def Contains (s sub : String) : Prop :=
  ∃ a b, s = a ++ sub ++ b

/-- Whether the run of `generate_content` on these inputs hits a
completion-call timeout: the news lookup succeeds and the first
non-`ok` completion outcome, in call order, is `timeout`. -/
def timesOutB (topic currentsapi_key : String)
    (fetch : NewsRequest → NewsResponse)
    (completion : Nat → String → CompletionOutcome) : Bool :=
  match get_recent_news currentsapi_key topic fetch with
  | NewsResult.ok rn =>
    match completion 0 (titlePrompt topic rn) with
    | CompletionOutcome.timeout => true
    | CompletionOutcome.error _ => false
    | CompletionOutcome.ok r1 =>
      match completion 1 (metaPrompt (pyStrip r1)) with
      | CompletionOutcome.timeout => true
      | CompletionOutcome.error _ => false
      | CompletionOutcome.ok _ =>
        match completion 2 (bodyPrompt topic rn) with
        | CompletionOutcome.timeout => true
        | _ => false
  | _ => false

/-- The `str(e)` of the first non-`ok` completion outcome when that
outcome is a non-timeout error, and `none` otherwise. -/
def failsWithB (topic currentsapi_key : String)
    (fetch : NewsRequest → NewsResponse)
    (completion : Nat → String → CompletionOutcome) : Option String :=
  match get_recent_news currentsapi_key topic fetch with
  | NewsResult.ok rn =>
    match completion 0 (titlePrompt topic rn) with
    | CompletionOutcome.timeout => none
    | CompletionOutcome.error e => some e
    | CompletionOutcome.ok r1 =>
      match completion 1 (metaPrompt (pyStrip r1)) with
      | CompletionOutcome.timeout => none
      | CompletionOutcome.error e => some e
      | CompletionOutcome.ok _ =>
        match completion 2 (bodyPrompt topic rn) with
        | CompletionOutcome.error e => some e
        | _ => none
  | _ => none

/-! ### Concrete provider stubs used to instantiate the theorems -/

/-- A news provider stub: HTTP 200 with two titled articles. -/
def fetchTwo : NewsRequest → NewsResponse :=
  fun _ => ⟨200, "", [⟨some "A"⟩, ⟨some "B"⟩]⟩

/-- A news provider stub: HTTP 200 with an empty `news` collection. -/
def fetchEmptyNews : NewsRequest → NewsResponse :=
  fun _ => ⟨200, "", []⟩

/-- A news provider stub that fails with HTTP 500 and body `"boom"`. -/
def fetchFail : NewsRequest → NewsResponse :=
  fun _ => ⟨500, "boom", []⟩

/-- A news provider stub: HTTP 200 with one article record that has no
`"title"` key. -/
def fetchNoTitle : NewsRequest → NewsResponse :=
  fun _ => ⟨200, "", [⟨none⟩]⟩

/-- A deterministic completion stub returning canned text, with
untrimmed whitespace, for each of the three calls. -/
def stubCompletion : Nat → String → CompletionOutcome :=
  fun i _ =>
    CompletionOutcome.ok (["  Заголовок  ", " Описание ", "\nТекст статьи "].getD i "")

/-- A completion stub whose second call times out. -/
def timeoutSecondCall : Nat → String → CompletionOutcome :=
  fun i _ => if i = 0 then CompletionOutcome.ok "  T  " else CompletionOutcome.timeout

/-- A completion stub whose first call raises a non-timeout error. -/
def errorFirstCall : Nat → String → CompletionOutcome :=
  fun _ _ => CompletionOutcome.error "boom"

/-! ### Helper lemmas -/

/-- When every record of `l` has a title, the comprehension succeeds and
returns exactly the titles. -/
theorem extractTitles_isSome {l : List Article}
    (h : ∀ a ∈ l, (Article.title a).isSome = true) :
    extractTitles l = some (l.filterMap Article.title) := by
  induction l with
  | nil => rfl
  | cons a rest ih =>
    obtain ⟨t, ht⟩ := Option.isSome_iff_exists.mp (h a (by simp))
    simp [extractTitles, ht, ih (fun x hx => h x (by simp [hx]))]

/-- The title prompt contains the topic as a substring. -/
theorem titlePrompt_has_topic (topic rn : String) :
    Contains (titlePrompt topic rn) topic :=
  ⟨"Придумайте привлекательный и точный заголовок для статьи на тему '",
   "', с учётом актуальных новостей:\n" ++ rn ++
     ". Заголовок должен быть интересным и ясно передавать суть темы.",
   by simp [titlePrompt, String.append_assoc]⟩

/-- The title prompt contains the news-lookup result as a substring. -/
theorem titlePrompt_has_news (topic rn : String) :
    Contains (titlePrompt topic rn) rn :=
  ⟨"Придумайте привлекательный и точный заголовок для статьи на тему '" ++ topic ++
     "', с учётом актуальных новостей:\n",
   ". Заголовок должен быть интересным и ясно передавать суть темы.",
   by simp [titlePrompt, String.append_assoc]⟩

/-- The meta-description prompt contains the generated title as a
substring. -/
theorem metaPrompt_has_title (title : String) :
    Contains (metaPrompt title) title :=
  ⟨"Напишите мета-описание для статьи с заголовком: '",
   "'. Оно должно быть полным, информативным и содержать основные ключевые слова.",
   by simp [metaPrompt, String.append_assoc]⟩

/-- The body prompt contains the topic as a substring. -/
theorem bodyPrompt_has_topic (topic rn : String) :
    Contains (bodyPrompt topic rn) topic :=
  ⟨"Напишите подробную статью на тему '",
   "', используя последние новости:\n" ++ rn ++
     ". \n                Статья должна быть:\n                1. Информативной и логичной\n                2. Содержать не менее 1500 символов\n                3. Иметь четкую структуру с подзаголовками\n                4. Включать анализ текущих трендов\n                5. Иметь вступление, основную часть и заключение\n                6. Включать примеры из актуальных новостей\n                7. Каждый абзац должен быть не менее 3-4 предложений\n                8. Текст должен быть легким для восприятия и содержательным",
   by simp [bodyPrompt, String.append_assoc]⟩

/-- The body prompt contains the news-lookup result as a substring. -/
theorem bodyPrompt_has_news (topic rn : String) :
    Contains (bodyPrompt topic rn) rn :=
  ⟨"Напишите подробную статью на тему '" ++ topic ++
     "', используя последние новости:\n",
   ". \n                Статья должна быть:\n                1. Информативной и логичной\n                2. Содержать не менее 1500 символов\n                3. Иметь четкую структуру с подзаголовками\n                4. Включать анализ текущих трендов\n                5. Иметь вступление, основную часть и заключение\n                6. Включать примеры из актуальных новостей\n                7. Каждый абзац должен быть не менее 3-4 предложений\n                8. Текст должен быть легким для восприятия и содержательным",
   by simp [bodyPrompt, String.append_assoc]⟩

/-! ### Claim theorems -/

/-- C2: for every topic and every HTTP-200 news response whose records
all carry a title, the news lookup returns the newline-joined titles of
the first `min(N, 5)` articles, and for `N = 0` it returns the fixed
sentinel string as a normal result, not an error. -/
theorem news_lookup_spec (currentsapi_key topic : String)
    (fetch : NewsRequest → NewsResponse)
    (h200 : (fetch (newsRequest currentsapi_key topic)).status_code = 200)
    (hT : ∀ a ∈ (fetch (newsRequest currentsapi_key topic)).news,
      (Article.title a).isSome = true) :
    ((fetch (newsRequest currentsapi_key topic)).news = [] →
      get_recent_news currentsapi_key topic fetch =
        NewsResult.ok "Свежих новостей не найдено.") ∧
    ((fetch (newsRequest currentsapi_key topic)).news ≠ [] →
      get_recent_news currentsapi_key topic fetch =
        NewsResult.ok (String.intercalate "\n"
          (((fetch (newsRequest currentsapi_key topic)).news.take 5).filterMap
            Article.title))) ∧
    ((fetch (newsRequest currentsapi_key topic)).news.take 5).length =
      min (fetch (newsRequest currentsapi_key topic)).news.length 5 := by
  refine ⟨?_, ?_, ?_⟩
  · intro hnil
    simp [get_recent_news, h200, hnil]
  · intro hne
    have hsome := extractTitles_isSome
      (l := (fetch (newsRequest currentsapi_key topic)).news.take 5)
      (fun a ha => hT a (List.take_subset 5 _ ha))
    simp [get_recent_news, h200, hsome, List.isEmpty_iff, hne]
  · simp [List.length_take, Nat.min_comm]

/-- C2 witness: the spec evaluated on a concrete two-article stub. -/
theorem news_lookup_spec_witness :
    get_recent_news "k" "ai" fetchTwo = NewsResult.ok "A\nB" := by
  have h := (news_lookup_spec "k" "ai" fetchTwo rfl (by decide)).2.1 (by decide)
  exact h.trans (by decide)

/-- C4: when the news provider answers with a non-200 status,
`/generate-post` fails with the 500 error carrying the provider's
response text, unwrapped by the generation handlers, and the completion
provider is never called (the call trace is empty). -/
theorem news_error_propagates (topic currentsapi_key : String)
    (fetch : NewsRequest → NewsResponse)
    (completion : Nat → String → CompletionOutcome)
    (h : (fetch (newsRequest currentsapi_key topic)).status_code ≠ 200) :
    generate_content topic currentsapi_key fetch completion =
      (PostResult.httpError 500
        ("Ошибка при получении данных: " ++
          (fetch (newsRequest currentsapi_key topic)).text), []) := by
  simp [generate_content, get_recent_news, h]

/-- C4 witness: the failing news stub yields the propagated 500 and an
empty completion trace. -/
theorem news_error_propagates_witness :
    generate_content "ai" "k" fetchFail stubCompletion =
      (PostResult.httpError 500 ("Ошибка при получении данных: " ++ "boom"), []) :=
  news_error_propagates "ai" "k" fetchFail stubCompletion (by decide)

/-- C8: `GET /` and `GET /heartbeat` always answer HTTP 200 with their
fixed liveness payloads, independent of the downstream provider
state. -/
theorem liveness_routes_constant (p q : Providers) :
    root p = (200, ⟨"message", "Служба запущена"⟩) ∧
    heartbeat_api p = (200, ⟨"status", "Все работает, отлично!"⟩) ∧
    root p = root q ∧
    heartbeat_api p = heartbeat_api q :=
  ⟨rfl, rfl, rfl, rfl⟩

/-- C10: the request model accepts every topic string, the empty string
included, and with an empty topic the handler still proceeds into the
pipeline: the news lookup runs and all three completion calls are
issued. -/
theorem empty_topic_accepted :
    (∀ s : String, parseTopic (some s) = Except.ok ⟨s⟩) ∧
    parseTopic (some "") = Except.ok ⟨""⟩ ∧
    get_recent_news "k" "" fetchEmptyNews =
      NewsResult.ok "Свежих новостей не найдено." ∧
    (generate_post_api ⟨""⟩ "k" fetchEmptyNews stubCompletion).2.length = 3 :=
  ⟨fun _ => rfl, rfl, by decide, by decide⟩

/-- C6: with deterministic stubs answering each call, the response
fields are exactly the stubbed outputs of the first, second and third
completion call, each trimmed of leading and trailing whitespace. -/
theorem roundtrip_trimmed_stubs (topic currentsapi_key rn s1 s2 s3 : String)
    (fetch : NewsRequest → NewsResponse)
    (completion : Nat → String → CompletionOutcome)
    (hn : get_recent_news currentsapi_key topic fetch = NewsResult.ok rn)
    (h1 : completion 0 (titlePrompt topic rn) = CompletionOutcome.ok s1)
    (h2 : completion 1 (metaPrompt (pyStrip s1)) = CompletionOutcome.ok s2)
    (h3 : completion 2 (bodyPrompt topic rn) = CompletionOutcome.ok s3) :
    (generate_content topic currentsapi_key fetch completion).1 =
      PostResult.ok ⟨pyStrip s1, pyStrip s2, pyStrip s3⟩ := by
  simp [generate_content, hn, h1, h2, h3]

/-- C6 witness: the canned whitespace-padded stub outputs come back
exactly trimmed. -/
theorem roundtrip_trimmed_stubs_witness :
    (generate_content "artificial intelligence" "k" fetchTwo stubCompletion).1 =
      PostResult.ok ⟨"Заголовок", "Описание", "Текст статьи"⟩ := by
  have h := roundtrip_trimmed_stubs "artificial intelligence" "k" "A\nB"
    "  Заголовок  " " Описание " "\nТекст статьи " fetchTwo stubCompletion
    (by decide) rfl rfl rfl
  exact h.trans (by decide)

/-- C1: whenever generation succeeds, exactly three completion calls
were made, in the order title, meta-description, body; the title prompt
contains the topic and the news-lookup result, the meta-description
prompt contains the generated title, and the body prompt contains the
topic and the same news-lookup result. -/
theorem generation_pipeline_calls (topic currentsapi_key : String)
    (fetch : NewsRequest → NewsResponse)
    (completion : Nat → String → CompletionOutcome)
    (content : GeneratedContent)
    (h : (generate_content topic currentsapi_key fetch completion).1 =
      PostResult.ok content) :
    ∃ rn, get_recent_news currentsapi_key topic fetch = NewsResult.ok rn ∧
      (generate_content topic currentsapi_key fetch completion).2 =
        [⟨"gpt-4o-mini", titlePrompt topic rn, 60, 15⟩,
         ⟨"gpt-4o-mini", metaPrompt content.title, 120, 15⟩,
         ⟨"gpt-4o-mini", bodyPrompt topic rn, 1500, 30⟩] ∧
      Contains (titlePrompt topic rn) topic ∧
      Contains (titlePrompt topic rn) rn ∧
      Contains (metaPrompt content.title) content.title ∧
      Contains (bodyPrompt topic rn) topic ∧
      Contains (bodyPrompt topic rn) rn := by
  cases hn : get_recent_news currentsapi_key topic fetch with
  | httpError s d => simp [generate_content, hn] at h
  | keyError => simp [generate_content, hn] at h
  | ok rn =>
    cases h1 : completion 0 (titlePrompt topic rn) with
    | timeout => simp [generate_content, hn, h1] at h
    | error e => simp [generate_content, hn, h1] at h
    | ok r1 =>
      cases h2 : completion 1 (metaPrompt (pyStrip r1)) with
      | timeout => simp [generate_content, hn, h1, h2] at h
      | error e => simp [generate_content, hn, h1, h2] at h
      | ok r2 =>
        cases h3 : completion 2 (bodyPrompt topic rn) with
        | timeout => simp [generate_content, hn, h1, h2, h3] at h
        | error e => simp [generate_content, hn, h1, h2, h3] at h
        | ok r3 =>
          simp only [generate_content, hn, h1, h2, h3] at h
          obtain rfl : content = ⟨pyStrip r1, pyStrip r2, pyStrip r3⟩ :=
            (PostResult.ok.injEq _ _).mp h.symm
          refine ⟨rn, rfl, ?_, titlePrompt_has_topic topic rn,
            titlePrompt_has_news topic rn, metaPrompt_has_title _,
            bodyPrompt_has_topic topic rn, bodyPrompt_has_news topic rn⟩
          simp [generate_content, hn, h1, h2, h3]

/-- C1 witness: on a concrete successful run the trace has exactly
three completion calls. -/
theorem generation_pipeline_calls_witness :
    (generate_content "ai" "k" fetchTwo stubCompletion).2.length = 3 := by
  obtain ⟨rn, _, htrace, _⟩ := generation_pipeline_calls "ai" "k" fetchTwo
    stubCompletion ⟨"Заголовок", "Описание", "Текст статьи"⟩ (by decide)
  simp [htrace]

/-- C3: a timeout on whichever completion call the run reaches fails
the whole request with the 504 gateway-timeout error; any other
completion exception fails it with a 500 carrying the stringified
cause; and an error result is never the `ok` constructor, which alone
carries the three content fields, so no partial response exists. -/
theorem completion_failure_status (topic currentsapi_key : String)
    (fetch : NewsRequest → NewsResponse)
    (completion : Nat → String → CompletionOutcome) :
    (timesOutB topic currentsapi_key fetch completion = true →
      (generate_content topic currentsapi_key fetch completion).1 =
        PostResult.httpError 504 timeoutDetail) ∧
    (∀ e, failsWithB topic currentsapi_key fetch completion = some e →
      (generate_content topic currentsapi_key fetch completion).1 =
        PostResult.httpError 500 ("Ошибка при генерации контента: " ++ e)) ∧
    (∀ s d c, (generate_content topic currentsapi_key fetch completion).1 =
        PostResult.httpError s d →
      (generate_content topic currentsapi_key fetch completion).1 ≠
        PostResult.ok c) := by
  unfold timesOutB failsWithB generate_content
  cases hn : get_recent_news currentsapi_key topic fetch with
  | httpError s d => simp [hn]
  | keyError => simp [hn]
  | ok rn =>
    cases h1 : completion 0 (titlePrompt topic rn) with
    | timeout => simp [hn, h1]
    | error e => simp [hn, h1]
    | ok r1 =>
      cases h2 : completion 1 (metaPrompt (pyStrip r1)) with
      | timeout => simp [hn, h1, h2]
      | error e => simp [hn, h1, h2]
      | ok r2 =>
        cases h3 : completion 2 (bodyPrompt topic rn) with
        | timeout => simp [hn, h1, h2, h3]
        | error e => simp [hn, h1, h2, h3]
        | ok r3 => simp [hn, h1, h2, h3]

/-- C3 witness: a second-call timeout yields the 504, and a first-call
generic error yields the 500 with its cause. -/
theorem completion_failure_status_witness :
    (generate_content "ai" "k" fetchTwo timeoutSecondCall).1 =
      PostResult.httpError 504 timeoutDetail ∧
    (generate_content "ai" "k" fetchTwo errorFirstCall).1 =
      PostResult.httpError 500 ("Ошибка при генерации контента: " ++ "boom") :=
  ⟨(completion_failure_status "ai" "k" fetchTwo timeoutSecondCall).1 (by decide),
   (completion_failure_status "ai" "k" fetchTwo errorFirstCall).2.1 "boom" (by decide)⟩

/-- C9: under the documented precondition that every record of a
successful response carries a `title`, the extraction never raises; on a
concrete 200 response holding a record without a `title` key it raises
the `KeyError`, which is not the news-lookup 500 path, and escapes
`generate_content` unhandled. -/
theorem title_extraction_safety (currentsapi_key topic : String)
    (fetch : NewsRequest → NewsResponse)
    (h200 : (fetch (newsRequest currentsapi_key topic)).status_code = 200)
    (hT : ∀ a ∈ (fetch (newsRequest currentsapi_key topic)).news,
      (Article.title a).isSome = true) :
    get_recent_news currentsapi_key topic fetch ≠ NewsResult.keyError ∧
    get_recent_news "k" "ai" fetchNoTitle = NewsResult.keyError ∧
    generate_content "ai" "k" fetchNoTitle stubCompletion =
      (PostResult.unhandled, []) := by
  refine ⟨?_, by decide, by decide⟩
  have hsome := extractTitles_isSome
    (l := (fetch (newsRequest currentsapi_key topic)).news.take 5)
    (fun a ha => hT a (List.take_subset 5 _ ha))
  by_cases hnil : (fetch (newsRequest currentsapi_key topic)).news = []
  · simp [get_recent_news, h200, hnil]
  · simp [get_recent_news, h200, hsome, List.isEmpty_iff, hnil]

/-- C9 witness: on an all-titled concrete response the lookup does not
raise the `KeyError`. -/
theorem title_extraction_safety_witness :
    get_recent_news "k" "ai" fetchTwo ≠ NewsResult.keyError :=
  (title_extraction_safety "k" "ai" fetchTwo rfl (by decide)).1

/-- C5 counterexample: the outbound news request carries exactly the
keys `language`, `АСУ ТП` and `apiKey` — no category, country or
result-count-cap parameter — and no timeout is set on the call, so it
is not issued with a bounded wait of about 10 time units. -/
theorem news_request_shape_counterexample :
    (newsRequest "k" "ai").params.map Prod.fst =
      ["language", "АСУ ТП", "apiKey"] ∧
    (newsRequest "k" "ai").timeoutSeconds = none := by decide

/-- C5 amended: the outbound news request is a GET on the latest-news
URL whose query parameters are exactly the language code `ru`, the
topic under the literal key `АСУ ТП`, and the API key; no category,
country or result-count-cap parameter is sent and no request timeout is
set. -/
theorem news_request_shape (currentsapi_key topic : String) :
    (newsRequest currentsapi_key topic).method = "GET" ∧
    (newsRequest currentsapi_key topic).url =
      "https://api.currentsapi.services/v1/latest-news" ∧
    ("language", "ru") ∈ (newsRequest currentsapi_key topic).params ∧
    ("АСУ ТП", topic) ∈ (newsRequest currentsapi_key topic).params ∧
    ("apiKey", currentsapi_key) ∈ (newsRequest currentsapi_key topic).params ∧
    (newsRequest currentsapi_key topic).params.map Prod.fst =
      ["language", "АСУ ТП", "apiKey"] ∧
    (newsRequest currentsapi_key topic).timeoutSeconds = none := by
  simp [newsRequest]

/-- C7 counterexample: with both environment variables present but the
completion key set to the empty string, the startup check still aborts,
because Python truthiness treats the empty string like an absent
value. -/
theorem startup_check_counterexample :
    Option.isSome (some "" : Option String) = true ∧
    Option.isSome (some "currents-key" : Option String) = true ∧
    startService (some "") (some "currents-key") 8000 =
      StartupResult.aborted configErrorMsg := by decide

/-- C7 amended: when either credential is absent or falsy (the empty
string), startup aborts with the descriptive `ValueError` before any
port is bound; when both are present and non-empty, startup proceeds
and binds the port. -/
theorem startup_credential_check (k1 k2 : Option String) (port : Nat) :
    (k1 = none ∨ k2 = none →
      startService k1 k2 port = StartupResult.aborted configErrorMsg) ∧
    (pyTruthy k1 = false ∨ pyTruthy k2 = false →
      startService k1 k2 port = StartupResult.aborted configErrorMsg) ∧
    (pyTruthy k1 = true → pyTruthy k2 = true →
      startService k1 k2 port = StartupResult.running port) := by
  refine ⟨?_, ?_, ?_⟩
  · rintro (rfl | rfl) <;> simp [startService, pyTruthy]
  · rintro (h | h) <;> simp [startService, h]
  · intro h1 h2
    simp [startService, h1, h2]

/-- C7 witness: an absent first key aborts; two non-empty keys bind the
port. -/
theorem startup_credential_check_witness :
    startService none (some "currents-key") 1234 =
      StartupResult.aborted configErrorMsg ∧
    startService (some "openai-key") (some "currents-key") 8000 =
      StartupResult.running 8000 :=
  ⟨(startup_credential_check none (some "currents-key") 1234).1 (Or.inl rfl),
   (startup_credential_check (some "openai-key") (some "currents-key") 8000).2.2
     (by decide) (by decide)⟩

end BlogGpt
